import Mathlib

/-!
Verification development for the Sync route/rider coordination app
(`src/app.py`), a Flask application over a SQLite database with tables
`routes`, `links` (riders) and `calendar` (date-scoped associations).

The database is modelled as an explicit state (`DBState`): each table is a
list of rows, and the SQLite `INTEGER PRIMARY KEY AUTOINCREMENT` columns are
modelled by per-table counters that only ever increase (AUTOINCREMENT never
reuses an id, even after deletes).  Every HTTP handler of the source becomes
a pure function from a state (plus the request payload and the server clock
"today") to a response and a successor state.  Authentication
(`login_required`) is performed by an external session layer in the source
and is outside the modelled core, as are raw SQL error paths (`except`
branches that merely re-raise as HTTP 500).

Python string primitives (`lower`, `upper`, `strip`, `isdigit`, `rjust`,
`split`) are re-implemented structurally over `List Char` so that all
definitions evaluate inside the kernel; they coincide with Python's
behaviour on the ASCII strings the application handles.
-/

/-- ASCII lower-casing of one character, as Python `str.lower` does on ASCII. -/
def lowerChar (c : Char) : Char :=
  if 'A' ≤ c ∧ c ≤ 'Z' then Char.ofNat (c.toNat + 32) else c

/-- ASCII upper-casing of one character, as Python `str.upper` does on ASCII. -/
def upperChar (c : Char) : Char :=
  if 'a' ≤ c ∧ c ≤ 'z' then Char.ofNat (c.toNat - 32) else c

/-- Python `s.lower()` (SQL `LOWER`) on ASCII strings. -/
def lowerStr (s : String) : String := ⟨s.data.map lowerChar⟩

/-- Python `s.upper()` (SQL `UPPER`) on ASCII strings. -/
def upperStr (s : String) : String := ⟨s.data.map upperChar⟩

/-- Python whitespace test used by `str.strip`. -/
def isPyWS (c : Char) : Bool :=
  c == ' ' || c == '\t' || c == '\n' || c == '\r' || c == Char.ofNat 11 || c == Char.ofNat 12

/-- Python `s.strip()`: remove leading and trailing whitespace. -/
def pyStrip (s : String) : String :=
  ⟨((s.data.dropWhile isPyWS).reverse.dropWhile isPyWS).reverse⟩

/-- Python `len(s)` (number of characters). -/
def strLen (s : String) : Nat := s.data.length

/-- Python `s.isdigit()` for ASCII strings: nonempty and all characters 0-9. -/
def pyIsDigit (s : String) : Bool := !s.data.isEmpty && s.data.all Char.isDigit

/-- Python truthiness of an optional string field from `request.get_json()`:
`None` and the empty string are falsy. -/
def pyTruthy (o : Option String) : Bool := !(o.getD "").data.isEmpty

/-- Python `s.split(sep)` for a one-character separator, on the character list. -/
def splitOnChar (sep : Char) : List Char → List (List Char)
  | [] => [[]]
  | c :: cs =>
    match splitOnChar sep cs with
    | [] => [[c]]
    | g :: gs => if c = sep then [] :: g :: gs else (c :: g) :: gs

/-- Numeric value of a digit string (Python `int` on a digit-only string). -/
def digitsVal (l : List Char) : Nat := l.foldl (fun a c => a * 10 + (c.toNat - 48)) 0

/-- Gregorian leap-year rule, as `datetime` uses. -/
def isLeap (y : Nat) : Bool := y % 4 == 0 && (y % 100 != 0 || y % 400 == 0)

/-- Days in a month, as `datetime` validates `strptime("%Y-%m-%d")` input. -/
def daysInMonth (y m : Nat) : Nat :=
  if m == 2 then (if isLeap y then 29 else 28)
  else if m == 4 || m == 6 || m == 9 || m == 11 then 30 else 31

/-- `datetime.strptime(s, "%Y-%m-%d").date()`: `%Y` is exactly four digits,
`%m`/`%d` one or two digits, month 1-12, day 1-daysInMonth, year at least 1.
A successful parse is encoded order-isomorphically as `y*10000 + m*100 + d`,
so that `<` on the encoding is the `datetime.date` order. -/
def parseDate (s : String) : Option Nat :=
  match splitOnChar '-' s.data with
  | [ys, ms, ds] =>
    if ys.all Char.isDigit ∧ ms.all Char.isDigit ∧ ds.all Char.isDigit
        ∧ ys.length = 4 ∧ 1 ≤ ms.length ∧ ms.length ≤ 2 ∧ 1 ≤ ds.length ∧ ds.length ≤ 2 then
      let y := digitsVal ys
      let m := digitsVal ms
      let d := digitsVal ds
      if 1 ≤ y ∧ 1 ≤ m ∧ m ≤ 12 ∧ 1 ≤ d ∧ d ≤ daysInMonth y m then
        some (y * 10000 + m * 100 + d)
      else none
    else none
  | _ => none

/-- `datetime.strptime(s, "%H:%M")`: hour 0-23 and minute 0-59, one or two
digits each, encoded as `h*100 + mi`. -/
def parseTime (s : String) : Option Nat :=
  match splitOnChar ':' s.data with
  | [hs, ms] =>
    if hs.all Char.isDigit ∧ ms.all Char.isDigit
        ∧ 1 ≤ hs.length ∧ hs.length ≤ 2 ∧ 1 ≤ ms.length ∧ ms.length ≤ 2 then
      let h := digitsVal hs
      let mi := digitsVal ms
      if h ≤ 23 ∧ mi ≤ 59 then some (h * 100 + mi) else none
    else none
  | _ => none

/-- Digit character of `to_base36` from `app.py`. -/
def b36digit (r : Nat) : Char := "0123456789ABCDEFGHIJKLMNOPQRSTUVWXYZ".data.getD r 'X'

/-- The `while n:` loop of `to_base36`, written with explicit fuel so the
definition is structurally recursive; fuel `n` always suffices because the
loop divides `n` by 36 each step. -/
def toB36Aux : Nat → Nat → List Char
  | 0, _ => []
  | fuel+1, n => if n = 0 then [] else toB36Aux fuel (n / 36) ++ [b36digit (n % 36)]

/-- `to_base36` from `app.py`: base-36 encoding, most significant digit first,
`"0"` for zero. -/
def to_base36 (n : Nat) : String := if n = 0 then "0" else ⟨toB36Aux n n⟩

/-- Python `s.rjust(w, c)`. -/
def pyRjust (s : String) (w : Nat) (c : Char) : String :=
  ⟨List.replicate (w - s.data.length) c ++ s.data⟩

/-- A row of the `routes` table. -/
structure RouteRow where
  id : Nat
  slot_no : String
  end_point : String
  major_stops : Option String
  time : Option String
  transport_type : Option String
  no_of_people : Nat
deriving DecidableEq

/-- A row of the `links` (riders) table. -/
structure LinkRow where
  id : Nat
  name : String
  gender : Option String
  drop_point : String
  phone : String
  course_year : String
  branch : String
deriving DecidableEq

/-- A row of the `calendar` table: the date-scoped association.  `link_id` is
`none` for the placeholder row inserted together with a route. -/
structure CalRow where
  id : Nat
  travel_date : String
  route_id : Nat
  link_id : Option Nat
deriving DecidableEq

/-- Modelled from the spec: the event vocabulary of the ChangeBroadcaster
component the specification describes (route created, rider joined, rider
removed).  `src/app.py` registers no broadcaster and contains no publish
call of any kind, so no operation below ever appends such an event. -/
inductive BEvent where
  | route_created (route_id : Nat)
  | rider_joined (link_id route_id : Nat)
  | rider_removed (link_id : Nat)
deriving DecidableEq

/-- The whole database, plus the AUTOINCREMENT counters of the three tables
and the observable event log (see `BEvent`). -/
structure DBState where
  routes : List RouteRow
  links : List LinkRow
  cal : List CalRow
  nextRouteId : Nat
  nextLinkId : Nat
  nextCalId : Nat
  events : List BEvent
deriving DecidableEq

/-- The state produced by `init_db`: empty tables, counters at 1. -/
def initState : DBState := ⟨[], [], [], 1, 1, 1, []⟩

/-- `SELECT MAX(id) FROM routes`, with `NULL` read as 0 as the Python code
does (`int(r[0]) if (r and r[0]) else 0`). -/
def maxRouteId (s : DBState) : Nat := s.routes.foldr (fun r acc => max r.id acc) 0

/-- `generate_next_slot_no` from `app.py`.  The argument is the outcome of the
`SELECT MAX(id) FROM routes` read: `none` when the read raises (the `except`
branch, which silently falls back to `seq = 1`), `some maxId` on success. -/
def generate_next_slot_no (dbRead : Option Nat) : String :=
  let seq : Nat := match dbRead with
    | none => 1
    | some maxId => maxId + 1
  "SL" ++ pyRjust (to_base36 seq) 4 '0'

/-- The `/next_slot` endpoint on a live database: `generate_next_slot_no`
with a successful `MAX(id)` read of the current state. -/
def next_slot (s : DBState) : String := generate_next_slot_no (some (maxRouteId s))

/-- The integer sequence number `next_slot` encodes for a given state. -/
def nextSlotSeq (s : DBState) : Nat := maxRouteId s + 1

/-- JSON payload of `POST /routes` (`api_create_route`); absent keys are `none`. -/
structure CreateRouteReq where
  date : Option String := none
  slot_no : Option String := none
  end_point : Option String := none
  major_stops : Option String := none
  time : Option String := none
  transport_type : Option String := none
deriving DecidableEq

/-- Responses of `api_create_route`: the four 400 validation branches, the
409 duplicate branch, and 201 with the new route id. -/
inductive CreateResp where
  | missing
  | invalidDate
  | pastDate
  | invalidTime
  | duplicate
  | created (route_id : Nat)
deriving DecidableEq

/-- The `if ttime:` time-validation branch of `api_create_route`: a truthy
`time` that `strptime("%H:%M")` rejects. -/
def timeBad (t : Option String) : Bool := pyTruthy t && (parseTime (t.getD "")).isNone

/-- The duplicate-route query of `api_create_route`:
`SELECT r.id FROM routes r JOIN calendar cal ON cal.route_id = r.id WHERE
cal.travel_date = ? AND LOWER(r.end_point)=LOWER(?) AND COALESCE(r.time,'')=?
AND LOWER(COALESCE(r.transport_type,''))=LOWER(?)`. -/
def dupRouteExists (s : DBState) (d endp t ty : String) : Bool :=
  s.routes.any fun r => s.cal.any fun c =>
    c.route_id == r.id && c.travel_date == d
      && lowerStr r.end_point == lowerStr endp
      && r.time.getD "" == t
      && lowerStr (r.transport_type.getD "") == lowerStr ty

/-- The insert of `api_create_route`: the new `routes` row (with the
caller-supplied `slot_no`) plus the placeholder `calendar` row, committed
together. -/
def createInsert (s : DBState) (q : CreateRouteReq) : DBState :=
  { s with
    routes := s.routes ++ [{ id := s.nextRouteId, slot_no := q.slot_no.getD "",
                             end_point := q.end_point.getD "", major_stops := q.major_stops,
                             time := q.time, transport_type := q.transport_type,
                             no_of_people := 0 }],
    cal := s.cal ++ [{ id := s.nextCalId, travel_date := q.date.getD "",
                       route_id := s.nextRouteId, link_id := none }],
    nextRouteId := s.nextRouteId + 1,
    nextCalId := s.nextCalId + 1 }

/-- `api_create_route` (`POST /routes`): required-field check, date parse and
past-date check against the server clock `today`, optional time validation,
duplicate check, then insert.  `today` is the encoded `date.today()`. -/
def api_create_route (today : Nat) (s : DBState) (q : CreateRouteReq) :
    CreateResp × DBState :=
  if ¬(pyTruthy q.date ∧ pyTruthy q.slot_no ∧ pyTruthy q.end_point) then
    (CreateResp.missing, s)
  else
    match parseDate (q.date.getD "") with
    | none => (CreateResp.invalidDate, s)
    | some sel =>
      if sel < today then (CreateResp.pastDate, s)
      else if timeBad q.time then (CreateResp.invalidTime, s)
      else if dupRouteExists s (q.date.getD "") (q.end_point.getD "")
          (q.time.getD "") (q.transport_type.getD "") then
        (CreateResp.duplicate, s)
      else (CreateResp.created s.nextRouteId, createInsert s q)

/-- JSON payload of `POST /routes/<rid>/join` (`api_join_route`). -/
structure JoinReq where
  date : Option String := none
  name : Option String := none
  gender : Option String := none
  drop : Option String := none
  phone : Option String := none
  course_year : Option String := none
  branch : Option String := none
deriving DecidableEq

/-- Responses of `api_join_route`. -/
inductive JoinResp where
  | missing
  | invalidGender
  | invalidPhone
  | invalidDate
  | pastDate
  | dropMismatch (expected : String)
  | alreadyJoined
  | created (link_id : Nat)
deriving DecidableEq

/-- The endpoint-match check of `api_join_route`: load the route's
`end_point`; if the route row exists and its `end_point` is truthy and does
not match the submitted drop case-insensitively (after `strip`), fail with
the expected value.  A missing route row is NOT an error: the handler simply
continues. -/
def dropCheckFails (s : DBState) (rid : Nat) (drop : String) : Option String :=
  match s.routes.find? (fun r => r.id == rid) with
  | some r =>
    if ¬r.end_point.data.isEmpty ∧ lowerStr (pyStrip r.end_point) ≠ lowerStr (pyStrip drop) then
      some r.end_point
    else none
  | none => none

/-- The duplicate-join query of `api_join_route`:
`SELECT l.id FROM links l JOIN calendar cal ON cal.link_id = l.id WHERE
cal.travel_date=? AND cal.route_id=? AND l.phone=?`. -/
def joinDup (s : DBState) (d : String) (rid : Nat) (phone : String) : Bool :=
  s.links.any fun l => s.cal.any fun c =>
    c.link_id == some l.id && c.travel_date == d && c.route_id == rid && l.phone == phone

/-- The insert of `api_join_route`: the new `links` row (with the uppercased
gender) plus the `calendar` association row referencing it, committed
together. -/
def joinInsert (s : DBState) (rid : Nat) (q : JoinReq) : DBState :=
  { s with
    links := s.links ++ [{ id := s.nextLinkId, name := q.name.getD "",
                           gender := some (upperStr (q.gender.getD "")),
                           drop_point := q.drop.getD "", phone := q.phone.getD "",
                           course_year := q.course_year.getD "",
                           branch := q.branch.getD "" }],
    cal := s.cal ++ [{ id := s.nextCalId, travel_date := q.date.getD "",
                       route_id := rid, link_id := some s.nextLinkId }],
    nextLinkId := s.nextLinkId + 1,
    nextCalId := s.nextCalId + 1 }

/-- `api_join_route` (`POST /routes/<rid>/join`): required fields, gender in
M/F after upper-casing, all-digit phone of length at least 7, date parse and
past-date check, endpoint match, duplicate check, then insert. -/
def api_join_route (today : Nat) (s : DBState) (rid : Nat) (q : JoinReq) :
    JoinResp × DBState :=
  if ¬(pyTruthy q.date ∧ pyTruthy q.name ∧ ¬upperStr (q.gender.getD "") = ""
        ∧ pyTruthy q.drop ∧ pyTruthy q.phone ∧ pyTruthy q.course_year ∧ pyTruthy q.branch) then
    (JoinResp.missing, s)
  else if upperStr (q.gender.getD "") ≠ "M" ∧ upperStr (q.gender.getD "") ≠ "F" then
    (JoinResp.invalidGender, s)
  else if ¬pyIsDigit (q.phone.getD "") ∨ strLen (q.phone.getD "") < 7 then
    (JoinResp.invalidPhone, s)
  else
    match parseDate (q.date.getD "") with
    | none => (JoinResp.invalidDate, s)
    | some sel =>
      if sel < today then (JoinResp.pastDate, s)
      else
        match dropCheckFails s rid (q.drop.getD "") with
        | some expected => (JoinResp.dropMismatch expected, s)
        | none =>
          if joinDup s (q.date.getD "") rid (q.phone.getD "") then
            (JoinResp.alreadyJoined, s)
          else (JoinResp.created s.nextLinkId, joinInsert s rid q)

/-- The `/route_count` query (`api_route_count`):
`SELECT COUNT(*) FROM calendar WHERE travel_date=? AND route_id=? AND
link_id IS NOT NULL`. -/
def api_route_count (s : DBState) (d : String) (rid : Nat) : Nat :=
  (s.cal.filter fun c => c.travel_date == d && c.route_id == rid && c.link_id.isSome).length

/-- JSON payload of `PUT/PATCH /links/<lid>`; `drop` maps to `drop_point`. -/
structure LinkUpdateReq where
  name : Option String := none
  gender : Option String := none
  drop : Option String := none
  phone : Option String := none
  course_year : Option String := none
  branch : Option String := none
deriving DecidableEq

/-- Applying the supplied fields of a link update to one row. -/
def applyLinkUpdate (q : LinkUpdateReq) (l : LinkRow) : LinkRow :=
  { l with name := q.name.getD l.name,
           gender := match q.gender with | some v => some v | none => l.gender,
           drop_point := q.drop.getD l.drop_point,
           phone := q.phone.getD l.phone,
           course_year := q.course_year.getD l.course_year,
           branch := q.branch.getD l.branch }

/-- Responses of the modify endpoints: `{"ok": true}` or the 400 "No fields". -/
inductive ModResp where
  | ok
  | noFields
deriving DecidableEq

/-- The HTTP method dispatch of `api_links_modify`: `DELETE`, or
`PUT`/`PATCH` with the update payload. -/
inductive LinksModCall where
  | del
  | upd (q : LinkUpdateReq)
deriving DecidableEq

/-- `api_links_modify` (`/links/<lid>`).  `DELETE` removes every calendar row
referencing the link and then the link row itself, unconditionally answering
ok; `PUT`/`PATCH` updates the supplied fields of the matching row. -/
def api_links_modify (s : DBState) (lid : Nat) (call : LinksModCall) :
    ModResp × DBState :=
  match call with
  | LinksModCall.del =>
    (ModResp.ok,
     { s with cal := s.cal.filter (fun c => !(c.link_id == some lid)),
              links := s.links.filter (fun l => !(l.id == lid)) })
  | LinksModCall.upd q =>
    if q.name.isNone ∧ q.gender.isNone ∧ q.drop.isNone ∧ q.phone.isNone
        ∧ q.course_year.isNone ∧ q.branch.isNone then
      (ModResp.noFields, s)
    else
      (ModResp.ok,
       { s with links := s.links.map (fun l => if l.id == lid then applyLinkUpdate q l else l) })

/-- JSON payload of `PUT/PATCH /routes/<rid>`. -/
structure RouteUpdateReq where
  slot_no : Option String := none
  end_point : Option String := none
  major_stops : Option String := none
  time : Option String := none
  transport_type : Option String := none
deriving DecidableEq

/-- Applying the supplied fields of a route update to one row. -/
def applyRouteUpdate (q : RouteUpdateReq) (r : RouteRow) : RouteRow :=
  { r with slot_no := q.slot_no.getD r.slot_no,
           end_point := q.end_point.getD r.end_point,
           major_stops := match q.major_stops with | some v => some v | none => r.major_stops,
           time := match q.time with | some v => some v | none => r.time,
           transport_type := match q.transport_type with | some v => some v | none => r.transport_type }

/-- The HTTP method dispatch of `api_routes_modify`. -/
inductive RoutesModCall where
  | del
  | upd (q : RouteUpdateReq)
deriving DecidableEq

/-- `api_routes_modify` (`/routes/<rid>`).  `DELETE` removes every calendar
row of the route and then the route row, unconditionally answering ok;
`PUT`/`PATCH` updates the supplied fields (including `slot_no`, which is in
the handler's allowed list). -/
def api_routes_modify (s : DBState) (rid : Nat) (call : RoutesModCall) :
    ModResp × DBState :=
  match call with
  | RoutesModCall.del =>
    (ModResp.ok,
     { s with cal := s.cal.filter (fun c => !(c.route_id == rid)),
              routes := s.routes.filter (fun r => !(r.id == rid)) })
  | RoutesModCall.upd q =>
    if q.slot_no.isNone ∧ q.end_point.isNone ∧ q.major_stops.isNone
        ∧ q.time.isNone ∧ q.transport_type.isNone then
      (ModResp.noFields, s)
    else
      (ModResp.ok,
       { s with routes := s.routes.map (fun r => if r.id == rid then applyRouteUpdate q r else r) })

/-- Sequential composition of join requests against one route: all must
succeed (used to state the occupancy-count property). -/
def joinAll (today : Nat) (rid : Nat) (s : DBState) : List JoinReq → Option DBState
  | [] => some s
  | q :: qs =>
    match api_join_route today s rid q with
    | (JoinResp.created _, s') => joinAll today rid s' qs
    | _ => none

/-- Number of `calendar` rows for `(d, rid)` whose rider exists in `links`
and carries the given phone: the Rider/association pairs of one
`(date, route_id, phone)` tuple. -/
def joinedCount (s : DBState) (d : String) (rid : Nat) (phone : String) : Nat :=
  (s.cal.filter fun c => c.travel_date == d && c.route_id == rid
      && s.links.any (fun l => c.link_id == some l.id && l.phone == phone)).length

/-- The validation-failure responses of `api_join_route` (the HTTP 400 family
produced before any database write). -/
def isValidationResp : JoinResp → Bool
  | JoinResp.missing => true
  | JoinResp.invalidGender => true
  | JoinResp.invalidPhone => true
  | JoinResp.invalidDate => true
  | JoinResp.pastDate => true
  | _ => false

/-- The rejection condition the join validation implements: some required
field missing/empty, upper-cased gender outside M/F, phone not all digits or
shorter than 7, malformed date, or date before `today`. -/
def joinRejected (today : Nat) (q : JoinReq) : Prop :=
  ¬(pyTruthy q.date ∧ pyTruthy q.name ∧ ¬upperStr (q.gender.getD "") = ""
      ∧ pyTruthy q.drop ∧ pyTruthy q.phone ∧ pyTruthy q.course_year ∧ pyTruthy q.branch)
  ∨ (upperStr (q.gender.getD "") ≠ "M" ∧ upperStr (q.gender.getD "") ≠ "F")
  ∨ (¬pyIsDigit (q.phone.getD "") ∨ strLen (q.phone.getD "") < 7)
  ∨ parseDate (q.date.getD "") = none
  ∨ ((parseDate (q.date.getD "")).isSome ∧ (parseDate (q.date.getD "")).getD 0 < today)

instance (today : Nat) (q : JoinReq) : Decidable (joinRejected today q) := by
  unfold joinRejected; infer_instance

/-! ### Concrete states used by witnesses and counterexamples -/

/-- Server clock for the concrete scenarios: 2025-01-01, encoded. -/
def today0 : Nat := 20250101

/-- A valid create-route request (the spec's §8 scenario). -/
def reqCreateLib : CreateRouteReq :=
  { date := some "2025-03-01", slot_no := some "SL0001", end_point := some "Library",
    time := some "08:00", transport_type := some "bus" }

/-- State after creating the Library route (route id 1). -/
def st1 : DBState := (api_create_route today0 initState reqCreateLib).2

/-- A valid join request matching the Library route. -/
def reqJoinAsha : JoinReq :=
  { date := some "2025-03-01", name := some "Asha", gender := some "F",
    drop := some "Library", phone := some "9998887776",
    course_year := some "2", branch := some "CSE" }

/-- State after the Library route has one rider (link id 1). -/
def st2 : DBState := (api_join_route today0 st1 1 reqJoinAsha).2

/-- A valid join request aimed at a route id that exists in no state below. -/
def reqJoinGhost : JoinReq :=
  { date := some "2025-03-01", name := some "Ravi", gender := some "M",
    drop := some "Anywhere", phone := some "1234567",
    course_year := some "1", branch := some "ME" }

/-- A join request whose submitted gender is the lower-case `"m"`. -/
def reqJoinLowerG : JoinReq :=
  { date := some "2025-03-01", name := some "Ravi", gender := some "m",
    drop := some "Anywhere", phone := some "1234567",
    course_year := some "1", branch := some "ME" }

/-- A create-route request whose caller-supplied slot label is `"ZZZZ"`. -/
def reqCreateZ : CreateRouteReq :=
  { date := some "2025-03-01", slot_no := some "ZZZZ", end_point := some "Mall",
    time := some "09:00", transport_type := some "van" }

/-- State after deleting the Library route from `st1`. -/
def stDel : DBState := (api_routes_modify st1 1 RoutesModCall.del).2

/-- A second valid join request for the Library route, distinct phone. -/
def reqJoinBela : JoinReq :=
  { date := some "2025-03-01", name := some "Bela", gender := some "F",
    drop := some "Library", phone := some "1112223334",
    course_year := some "3", branch := some "EEE" }

/-- State after both riders joined the Library route. -/
def stJoins2 : DBState := (api_join_route today0 st2 1 reqJoinBela).2

/-- A create-route request whose duplicate tuple matches `reqCreateLib`
case-insensitively (`"LIBRARY"`/`"BUS"` versus `"Library"`/`"bus"`) while the
non-tuple fields `slot_no` and `major_stops` differ. -/
def reqCreateLibCased : CreateRouteReq :=
  { date := some "2025-03-01", slot_no := some "SL0002", end_point := some "LIBRARY",
    major_stops := some "Gate A", time := some "08:00", transport_type := some "BUS" }

/-! ### Inversion lemmas -/

/-- Inversion of a successful `api_create_route` call: every validation
passed, the duplicate check was negative, and the result state is the
two-row insert. -/
lemma create_success_inv {today : Nat} {s : DBState} {q : CreateRouteReq}
    {rid : Nat} {s' : DBState}
    (h : api_create_route today s q = (CreateResp.created rid, s')) :
    (pyTruthy q.date ∧ pyTruthy q.slot_no ∧ pyTruthy q.end_point)
    ∧ (∃ sel, parseDate (q.date.getD "") = some sel ∧ ¬sel < today)
    ∧ timeBad q.time = false
    ∧ dupRouteExists s (q.date.getD "") (q.end_point.getD "")
        (q.time.getD "") (q.transport_type.getD "") = false
    ∧ rid = s.nextRouteId ∧ s' = createInsert s q := by
  unfold api_create_route at h
  split at h
  · simp at h
  · rename_i hmiss
    split at h
    · simp at h
    · rename_i sel hsel
      split at h
      · simp at h
      · rename_i hpast
        split at h
        · simp at h
        · rename_i htime
          split at h
          · simp at h
          · rename_i hdup
            simp only [Prod.mk.injEq, CreateResp.created.injEq] at h
            exact ⟨not_not.mp hmiss, ⟨sel, hsel, hpast⟩, by simpa using htime,
              by simpa using hdup, h.1.symm, h.2.symm⟩

/-- `pyTruthy` only depends on the `None`-coalesced string. -/
lemma pyTruthy_congr {t1 t2 : Option String} (h : t2.getD "" = t1.getD "") :
    pyTruthy t2 = pyTruthy t1 := by
  unfold pyTruthy
  rw [h]

/-- `timeBad` only depends on the `None`-coalesced string. -/
lemma timeBad_congr {t1 t2 : Option String} (h : t2.getD "" = t1.getD "") :
    timeBad t2 = timeBad t1 := by
  unfold timeBad
  rw [pyTruthy_congr h, h]

/-- Strings with equal lower-casings are empty together (lower-casing is a
character-wise map, so it preserves length). -/
lemma data_isEmpty_congr_of_lowerStr {a b : String} (h : lowerStr a = lowerStr b) :
    a.data.isEmpty = b.data.isEmpty := by
  have hm : a.data.map lowerChar = b.data.map lowerChar := congrArg String.data h
  cases ha : a.data <;> cases hb : b.data <;> simp_all

/-- After `createInsert` of `q1`, the duplicate-route query finds the fresh
route through its placeholder row for ANY probe tuple that matches `q1`'s on
the query's own terms: same date, case-insensitively equal end point and
transport type, and exactly equal `COALESCE`d time. -/
lemma dup_after_createInsert (s : DBState) (q1 : CreateRouteReq)
    (d endp t ty : String)
    (hd : d = q1.date.getD "")
    (he : lowerStr endp = lowerStr (q1.end_point.getD ""))
    (ht : t = q1.time.getD "")
    (hy : lowerStr ty = lowerStr (q1.transport_type.getD "")) :
    dupRouteExists (createInsert s q1) d endp t ty = true := by
  subst hd
  subst ht
  unfold dupRouteExists createInsert
  simp [List.any_append, he, hy]

/-- C1: once a first valid create-route call has stored its route (one
`routes` row and one placeholder `calendar` row), EVERY second valid request
carrying the same `(date, end_point, time, transport_type)` tuple — the end
point and transport type compared case-insensitively, the time exactly under
the `COALESCE(·,'')` convention, and regardless of its `slot_no` and
`major_stops` — fails with the duplicate-route conflict and leaves the state
untouched. -/
theorem create_route_duplicate_rejected (today : Nat) (s : DBState)
    (q1 q2 : CreateRouteReq) (rid : Nat) (s' : DBState)
    (h : api_create_route today s q1 = (CreateResp.created rid, s'))
    (hdate : q2.date.getD "" = q1.date.getD "")
    (hend : lowerStr (q2.end_point.getD "") = lowerStr (q1.end_point.getD ""))
    (htime : q2.time.getD "" = q1.time.getD "")
    (hty : lowerStr (q2.transport_type.getD "") = lowerStr (q1.transport_type.getD ""))
    (hslot2 : pyTruthy q2.slot_no) :
    s'.routes.length = s.routes.length + 1
    ∧ s'.cal.length = s.cal.length + 1
    ∧ api_create_route today s' q2 = (CreateResp.duplicate, s') := by
  obtain ⟨hmiss, ⟨sel, hsel, hpast⟩, htime1, _hdup, _hrid, hs'⟩ := create_success_inv h
  subst hs'
  refine ⟨by simp [createInsert], by simp [createInsert], ?_⟩
  have hdate_t : pyTruthy q2.date = true := by
    rw [pyTruthy_congr hdate]
    exact hmiss.1
  have hend_t : pyTruthy q2.end_point = true := by
    unfold pyTruthy
    rw [data_isEmpty_congr_of_lowerStr hend]
    exact hmiss.2.2
  have htime_b : timeBad q2.time = false := by
    rw [timeBad_congr htime]
    exact htime1
  have hsel2 : parseDate (q2.date.getD "") = some sel := by
    rw [hdate]
    exact hsel
  have hdup2 := dup_after_createInsert s q1 (q2.date.getD "") (q2.end_point.getD "")
    (q2.time.getD "") (q2.transport_type.getD "") hdate hend htime hty
  simp [api_create_route, hdate_t, hslot2, hend_t, hsel2, hpast, htime_b, hdup2]

/-- C1 witness: the §8 scenario with a genuinely different second request —
`"LIBRARY"`/`"BUS"` against the stored `"Library"`/`"bus"`, a different
`slot_no` and extra `major_stops` — still rejected as a duplicate. -/
theorem create_route_duplicate_rejected_witness :
    (api_create_route today0 initState reqCreateLib = (CreateResp.created 1, st1)
      ∧ reqCreateLibCased.date.getD "" = reqCreateLib.date.getD ""
      ∧ lowerStr (reqCreateLibCased.end_point.getD "")
          = lowerStr (reqCreateLib.end_point.getD "")
      ∧ reqCreateLibCased.time.getD "" = reqCreateLib.time.getD ""
      ∧ lowerStr (reqCreateLibCased.transport_type.getD "")
          = lowerStr (reqCreateLib.transport_type.getD "")
      ∧ pyTruthy reqCreateLibCased.slot_no
      ∧ reqCreateLibCased.end_point ≠ reqCreateLib.end_point
      ∧ reqCreateLibCased.slot_no ≠ reqCreateLib.slot_no)
    ∧ (st1.routes.length = initState.routes.length + 1
       ∧ st1.cal.length = initState.cal.length + 1
       ∧ api_create_route today0 st1 reqCreateLibCased = (CreateResp.duplicate, st1)) :=
  ⟨⟨by decide, by decide, by decide, by decide, by decide, by decide, by decide, by decide⟩,
   create_route_duplicate_rejected today0 initState reqCreateLib reqCreateLibCased 1 st1
     (by decide) (by decide) (by decide) (by decide) (by decide) (by decide)⟩

/-- Inversion of a successful `api_join_route` call: every validation passed,
the endpoint matched (or no route row exists), the duplicate check was
negative, and the result state is the two-row insert. -/
lemma join_success_inv {today : Nat} {s : DBState} {rid : Nat} {q : JoinReq}
    {lid : Nat} {s' : DBState}
    (h : api_join_route today s rid q = (JoinResp.created lid, s')) :
    (pyTruthy q.date ∧ pyTruthy q.name ∧ ¬upperStr (q.gender.getD "") = ""
      ∧ pyTruthy q.drop ∧ pyTruthy q.phone ∧ pyTruthy q.course_year ∧ pyTruthy q.branch)
    ∧ (upperStr (q.gender.getD "") = "M" ∨ upperStr (q.gender.getD "") = "F")
    ∧ (pyIsDigit (q.phone.getD "") = true ∧ ¬strLen (q.phone.getD "") < 7)
    ∧ (∃ sel, parseDate (q.date.getD "") = some sel ∧ ¬sel < today)
    ∧ dropCheckFails s rid (q.drop.getD "") = none
    ∧ joinDup s (q.date.getD "") rid (q.phone.getD "") = false
    ∧ lid = s.nextLinkId ∧ s' = joinInsert s rid q := by
  unfold api_join_route at h
  split at h
  · simp at h
  · rename_i hmiss
    split at h
    · simp at h
    · rename_i hg
      split at h
      · simp at h
      · rename_i hp
        split at h
        · simp at h
        · rename_i sel hsel
          split at h
          · simp at h
          · rename_i hpast
            split at h
            · simp at h
            · rename_i hdrop
              split at h
              · simp at h
              · rename_i hdup
                simp only [Prod.mk.injEq, JoinResp.created.injEq] at h
                have hg' : upperStr (q.gender.getD "") = "M" ∨ upperStr (q.gender.getD "") = "F" := by
                  rcases not_and_or.mp hg with h' | h' <;> [left; right] <;> exact not_not.mp h'
                have hp' : pyIsDigit (q.phone.getD "") = true ∧ ¬strLen (q.phone.getD "") < 7 := by
                  have := not_or.mp hp
                  exact ⟨by simpa using this.1, this.2⟩
                exact ⟨not_not.mp hmiss, hg', hp', ⟨sel, hsel, hpast⟩, hdrop,
                  by simpa using hdup, h.1.symm, h.2.symm⟩

/-- After `joinInsert`, the duplicate-join query for the same
`(date, route_id, phone)` finds the freshly inserted rider/association pair. -/
lemma dup_after_joinInsert (s : DBState) (rid : Nat) (q : JoinReq) :
    joinDup (joinInsert s rid q) (q.date.getD "") rid (q.phone.getD "") = true := by
  unfold joinDup joinInsert
  simp [List.any_append]

/-- `joinInsert` does not touch the `routes` table, so the endpoint-match
check is unchanged. -/
lemma dropCheckFails_joinInsert (s : DBState) (rid rid' : Nat) (q : JoinReq)
    (drop : String) :
    dropCheckFails (joinInsert s rid q) rid' drop = dropCheckFails s rid' drop := rfl

/-- A negative duplicate-join check, element-wise: no existing link/calendar
pair realises the `(date, route_id, phone)` tuple. -/
lemma joinDup_false_elim {s : DBState} {d : String} {rid : Nat} {phone : String}
    (hdup : joinDup s d rid phone = false) :
    ∀ l ∈ s.links, ∀ c ∈ s.cal,
      ¬(c.link_id = some l.id ∧ c.travel_date = d ∧ c.route_id = rid ∧ l.phone = phone) := by
  intro l hl c hc hcontra
  have htrue : joinDup s d rid phone = true := by
    unfold joinDup
    simp only [List.any_eq_true]
    exact ⟨l, hl, c, hc,
      by simp [hcontra.1, hcontra.2.1, hcontra.2.2.1, hcontra.2.2.2]⟩
  rw [hdup] at htrue
  exact Bool.false_ne_true htrue

/-- After `joinInsert` from a state with no association for
`(date, route_id, phone)` and no dangling forward reference to the next link
id, exactly one Rider/association pair exists for that tuple. -/
lemma joinedCount_after_insert (s : DBState) (rid : Nat) (q : JoinReq)
    (hC : ∀ c ∈ s.cal, c.link_id.getD 0 < s.nextLinkId)
    (hdup : joinDup s (q.date.getD "") rid (q.phone.getD "") = false) :
    joinedCount (joinInsert s rid q) (q.date.getD "") rid (q.phone.getD "") = 1 := by
  have helim := joinDup_false_elim hdup
  unfold joinedCount joinInsert
  simp only [List.filter_append]
  rw [List.filter_eq_nil_iff.mpr ?hold]
  case hold =>
    intro c hc
    simp only [Bool.and_eq_true, beq_iff_eq, List.any_append, Bool.or_eq_true,
      List.any_eq_true, List.any_cons, List.any_nil, not_and]
    rintro ⟨hdate, hrid⟩ (⟨l, hl, hcl, hlp⟩ | ⟨hcl, -⟩ | hfalse)
    · exact helim l hl c hc ⟨hcl, hdate, hrid, hlp⟩
    · have := hC c hc
      rw [hcl] at this
      simp at this
    · simp at hfalse
  simp [List.any_append]

/-- After `joinInsert` from a state whose link ids are all below the
AUTOINCREMENT counter, exactly one Rider row carries the new id. -/
lemma links_filter_after_insert (s : DBState) (rid : Nat) (q : JoinReq)
    (hL : ∀ l ∈ s.links, l.id < s.nextLinkId) :
    ((joinInsert s rid q).links.filter fun l => l.id == s.nextLinkId).length = 1 := by
  unfold joinInsert
  simp only [List.filter_append]
  rw [List.filter_eq_nil_iff.mpr ?hold]
  case hold =>
    intro l hl
    simpa using Nat.ne_of_lt (hL l hl)
  simp

/-- C2: once a join for `(date, route_id, phone)` has succeeded from a state
whose AUTOINCREMENT counter dominates all stored link ids, a second identical
join fails with the already-joined conflict and writes nothing, and the state
holds exactly one Rider row and one association row for that tuple. -/
theorem join_route_duplicate_rejected (today : Nat) (s : DBState) (rid : Nat)
    (q : JoinReq) (lid : Nat) (s' : DBState)
    (hL : ∀ l ∈ s.links, l.id < s.nextLinkId)
    (hC : ∀ c ∈ s.cal, c.link_id.getD 0 < s.nextLinkId)
    (h : api_join_route today s rid q = (JoinResp.created lid, s')) :
    api_join_route today s' rid q = (JoinResp.alreadyJoined, s')
    ∧ joinedCount s' (q.date.getD "") rid (q.phone.getD "") = 1
    ∧ (s'.links.filter fun l => l.id == lid).length = 1 := by
  obtain ⟨hmiss, hg, hp, ⟨sel, hsel, hpast⟩, hdropnone, hdup, hlid, hs'⟩ := join_success_inv h
  subst hs'
  subst hlid
  have hgneg : ¬(upperStr (q.gender.getD "") ≠ "M" ∧ upperStr (q.gender.getD "") ≠ "F") := by
    rcases hg with h' | h' <;> simp [h']
  have hpneg : ¬(¬pyIsDigit (q.phone.getD "") ∨ strLen (q.phone.getD "") < 7) := by
    rw [not_or]
    exact ⟨by simp [hp.1], hp.2⟩
  refine ⟨?_, joinedCount_after_insert s rid q hC hdup, links_filter_after_insert s rid q hL⟩
  have hdrop2 : dropCheckFails (joinInsert s rid q) rid (q.drop.getD "") = none := by
    rw [dropCheckFails_joinInsert]
    exact hdropnone
  simp [api_join_route, hmiss, hgneg, hpneg, hsel, hpast, hdrop2, dup_after_joinInsert,
    hp.1, Nat.le_of_not_lt hp.2]

/-- C2 witness: the concrete §8 scenario (route 1 on 2025-03-01, phone
9998887776). -/
theorem join_route_duplicate_rejected_witness :
    ((∀ l ∈ st1.links, l.id < st1.nextLinkId)
      ∧ (∀ c ∈ st1.cal, c.link_id.getD 0 < st1.nextLinkId)
      ∧ api_join_route today0 st1 1 reqJoinAsha = (JoinResp.created 1, st2))
    ∧ (api_join_route today0 st2 1 reqJoinAsha = (JoinResp.alreadyJoined, st2)
       ∧ joinedCount st2 "2025-03-01" 1 "9998887776" = 1
       ∧ (st2.links.filter fun l => l.id == 1).length = 1) :=
  ⟨⟨by decide, by decide, by decide⟩,
   join_route_duplicate_rejected today0 st1 1 reqJoinAsha 1 st2
     (by decide) (by decide) (by decide)⟩

/-- C3 counterexample: a join aimed at a route id that does not exist (and,
below, at a just-deleted route) does NOT fail with any route-not-found
signal: it succeeds with 201 and writes a rider and an association row
referencing the missing route. -/
theorem join_missing_route_not_rejected_cex :
    initState.routes = []
    ∧ (api_join_route today0 initState 7 reqJoinGhost).1 = JoinResp.created 1
    ∧ ((api_join_route today0 initState 7 reqJoinGhost).2).cal.length = 1
    ∧ stDel.routes = []
    ∧ (api_join_route today0 stDel 1 reqJoinAsha).1 = JoinResp.created 1 := by
  refine ⟨by decide, by decide, by decide, by decide, by decide⟩

/-- C3 amended: `api_join_route` performs no route-existence or
calendar-association check.  When the referenced route has no row at all
(for instance after deletion), a request passing the field validations with
no prior `(date, route_id, phone)` association succeeds, inserting the Rider
row and an association row that references the missing route. -/
theorem join_missing_route_proceeds (today : Nat) (s : DBState) (rid : Nat)
    (q : JoinReq)
    (hroute : s.routes.find? (fun r => r.id == rid) = none)
    (hmiss : pyTruthy q.date ∧ pyTruthy q.name ∧ ¬upperStr (q.gender.getD "") = ""
      ∧ pyTruthy q.drop ∧ pyTruthy q.phone ∧ pyTruthy q.course_year ∧ pyTruthy q.branch)
    (hg : upperStr (q.gender.getD "") = "M" ∨ upperStr (q.gender.getD "") = "F")
    (hp : pyIsDigit (q.phone.getD "") = true)
    (hp7 : ¬strLen (q.phone.getD "") < 7)
    (sel : Nat) (hsel : parseDate (q.date.getD "") = some sel) (hpast : ¬sel < today)
    (hdup : joinDup s (q.date.getD "") rid (q.phone.getD "") = false) :
    api_join_route today s rid q = (JoinResp.created s.nextLinkId, joinInsert s rid q)
    ∧ (joinInsert s rid q).links.length = s.links.length + 1
    ∧ (joinInsert s rid q).cal.length = s.cal.length + 1 := by
  have hgneg : ¬(upperStr (q.gender.getD "") ≠ "M" ∧ upperStr (q.gender.getD "") ≠ "F") := by
    rcases hg with h' | h' <;> simp [h']
  have hpneg : ¬(¬pyIsDigit (q.phone.getD "") ∨ strLen (q.phone.getD "") < 7) := by
    rw [not_or]
    exact ⟨by simp [hp], hp7⟩
  have hdropnone : dropCheckFails s rid (q.drop.getD "") = none := by
    unfold dropCheckFails
    rw [hroute]
  refine ⟨?_, by simp [joinInsert], by simp [joinInsert]⟩
  simp [api_join_route, hmiss, hgneg, hpneg, hsel, hpast, hdropnone, hdup, hp,
    Nat.le_of_not_lt hp7]

/-- C3 witness: the amended behaviour at the concrete ghost-route scenario. -/
theorem join_missing_route_proceeds_witness :
    (initState.routes.find? (fun r => r.id == 7) = none
      ∧ (pyTruthy reqJoinGhost.date ∧ pyTruthy reqJoinGhost.name
          ∧ ¬upperStr (reqJoinGhost.gender.getD "") = "" ∧ pyTruthy reqJoinGhost.drop
          ∧ pyTruthy reqJoinGhost.phone ∧ pyTruthy reqJoinGhost.course_year
          ∧ pyTruthy reqJoinGhost.branch)
      ∧ parseDate (reqJoinGhost.date.getD "") = some 20250301
      ∧ joinDup initState (reqJoinGhost.date.getD "") 7 (reqJoinGhost.phone.getD "") = false)
    ∧ (api_join_route today0 initState 7 reqJoinGhost
        = (JoinResp.created 1, joinInsert initState 7 reqJoinGhost)
       ∧ (joinInsert initState 7 reqJoinGhost).links.length = initState.links.length + 1
       ∧ (joinInsert initState 7 reqJoinGhost).cal.length = initState.cal.length + 1) :=
  ⟨⟨by decide, by decide, by decide, by decide⟩,
   join_missing_route_proceeds today0 initState 7 reqJoinGhost (by decide) (by decide)
     (by decide) (by decide) (by decide) 20250301 (by decide) (by decide) (by decide)⟩

/-- Folding the SQL `MAX` with an arbitrary seed equals taking `max` of the
zero-seeded fold and the seed. -/
lemma foldr_max_seed (l : List RouteRow) (b : Nat) :
    l.foldr (fun r acc => max r.id acc) b
      = max (l.foldr (fun r acc => max r.id acc) 0) b := by
  induction l with
  | nil => simp
  | cons a l ih =>
    simp only [List.foldr_cons, ih]
    omega

/-- `MAX(id)` after a create-route insert: the inserted row carries the
AUTOINCREMENT counter. -/
lemma maxRouteId_createInsert (s : DBState) (q : CreateRouteReq) :
    maxRouteId (createInsert s q) = max (maxRouteId s) s.nextRouteId := by
  unfold maxRouteId createInsert
  simp only [List.foldr_append, List.foldr_cons, List.foldr_nil]
  rw [foldr_max_seed]
  omega

/-- C4 counterexample: the `next_slot` values read across sequential
`create_route` calls are NOT strictly increasing and DO repeat once a delete
intervenes, because the sequence number is `MAX(id)` over the live rows plus
one, and deleting the highest route makes that maximum fall back.  Concretely
the reads produce SL0001, then SL0002, then SL0001 again. -/
theorem next_slot_repeats_after_delete_cex :
    next_slot initState = "SL0001"
    ∧ next_slot st1 = "SL0002"
    ∧ api_routes_modify st1 1 RoutesModCall.del = (ModResp.ok, stDel)
    ∧ next_slot stDel = "SL0001" := by
  refine ⟨by decide, by decide, by decide, by decide⟩

/-- C4 amended: with NO intervening deletion the sequence numbers behind
`next_slot` are strictly increasing across sequential successful
`create_route` calls: each insert raises `MAX(id)` to the AUTOINCREMENT
counter, and the dominance of the counter over all live ids is preserved, so
the argument iterates along any delete-free chain of creates.  (After a
deletion of the highest-id route the value can repeat, as the counterexample
shows.) -/
theorem next_slot_strictly_increases (today : Nat) (s : DBState)
    (q : CreateRouteReq) (rid : Nat) (s' : DBState)
    (hinv : maxRouteId s < s.nextRouteId)
    (h : api_create_route today s q = (CreateResp.created rid, s')) :
    nextSlotSeq s < nextSlotSeq s' ∧ maxRouteId s' < s'.nextRouteId := by
  obtain ⟨-, -, -, -, -, hs'⟩ := create_success_inv h
  subst hs'
  have hmax := maxRouteId_createInsert s q
  unfold nextSlotSeq
  constructor
  · rw [hmax]
    omega
  · rw [hmax]
    show _ < (createInsert s q).nextRouteId
    simp only [createInsert]
    omega

/-- C4 witness: the first concrete create raises the sequence number from 1
to 2. -/
theorem next_slot_strictly_increases_witness :
    (maxRouteId initState < initState.nextRouteId
      ∧ api_create_route today0 initState reqCreateLib = (CreateResp.created 1, st1))
    ∧ (nextSlotSeq initState < nextSlotSeq st1 ∧ maxRouteId st1 < st1.nextRouteId) :=
  ⟨⟨by decide, by decide⟩,
   next_slot_strictly_increases today0 initState reqCreateLib 1 st1 (by decide) (by decide)⟩

/-- C5 counterexample: when the counter read fails, `generate_next_slot_no`
does not fail with any sequencer-unavailable signal — it silently returns
the ordinary slot string SL0001, which collides with the slot label already
stored on the concrete state `st1`. -/
theorem sequencer_fallback_cex :
    generate_next_slot_no none = "SL0001"
    ∧ (st1.routes.map fun r => r.slot_no) = ["SL0001"] := by
  refine ⟨by decide, by decide⟩

/-- C5 amended: on an unreadable counter source `generate_next_slot_no`
silently falls back to sequence number 1 and returns `"SL0001"` — exactly
the value produced for an empty routes table — rather than failing; only a
successful read yields `MAX(id) + 1`. -/
theorem sequencer_fallback_returns_slot1 :
    generate_next_slot_no none = "SL0001"
    ∧ generate_next_slot_no none = next_slot initState
    ∧ ∀ m : Nat, generate_next_slot_no (some m) = "SL" ++ pyRjust (to_base36 (m + 1)) 4 '0' :=
  ⟨by decide, by decide, fun _ => rfl⟩

/-- C6 counterexample: a committed create, a committed join and a committed
rider removal on concrete states publish no event whatsoever — the event log
stays empty after every one of them. -/
theorem no_event_on_committed_mutation_cex :
    (api_create_route today0 initState reqCreateLib).1 = CreateResp.created 1
    ∧ st1.events = []
    ∧ (api_join_route today0 st1 1 reqJoinAsha).1 = JoinResp.created 1
    ∧ st2.events = []
    ∧ (api_links_modify st2 1 LinksModCall.del).1 = ModResp.ok
    ∧ ((api_links_modify st2 1 LinksModCall.del).2).events = [] := by
  refine ⟨by decide, by decide, by decide, by decide, by decide, by decide⟩

/-- C6 amended: no operation of the source publishes any event to observers:
route creation, rider join, rider removal/update and route removal/update
all leave the event log unchanged (the source registers no broadcaster), so
in particular no event is ever published before — or after — a commit. -/
theorem no_events_ever_published (today : Nat) (s : DBState) (q : CreateRouteReq)
    (rid lid : Nat) (qj : JoinReq) (lc : LinksModCall) (rc : RoutesModCall) :
    ((api_create_route today s q).2).events = s.events
    ∧ ((api_join_route today s rid qj).2).events = s.events
    ∧ ((api_links_modify s lid lc).2).events = s.events
    ∧ ((api_routes_modify s rid rc).2).events = s.events := by
  refine ⟨?_, ?_, ?_, ?_⟩
  · unfold api_create_route
    repeat' split
    all_goals rfl
  · unfold api_join_route
    repeat' split
    all_goals rfl
  · unfold api_links_modify
    repeat' split
    all_goals rfl
  · unfold api_routes_modify
    repeat' split
    all_goals rfl

/-- One successful join raises the occupancy count of its `(date, route_id)`
by exactly one. -/
lemma count_after_join (today : Nat) (s : DBState) (rid : Nat) (q : JoinReq)
    (lid : Nat) (s' : DBState)
    (h : api_join_route today s rid q = (JoinResp.created lid, s')) :
    api_route_count s' (q.date.getD "") rid = api_route_count s (q.date.getD "") rid + 1 := by
  obtain ⟨-, -, -, -, -, -, -, hs'⟩ := join_success_inv h
  subst hs'
  unfold api_route_count joinInsert
  simp [List.filter_append]

/-- A chain of successful joins for one `(date, route_id)` raises the
occupancy count by its length. -/
lemma joinAll_count (today : Nat) (rid : Nat) (d : String) :
    ∀ (qs : List JoinReq) (s s' : DBState), (∀ q ∈ qs, q.date.getD "" = d) →
      joinAll today rid s qs = some s' →
      api_route_count s' d rid = api_route_count s d rid + qs.length := by
  intro qs
  induction qs with
  | nil =>
    intro s s' _ h
    simp only [joinAll, Option.some.injEq] at h
    subst h
    simp
  | cons q qs ih =>
    intro s s' hd h
    unfold joinAll at h
    split at h
    · rename_i lid s1 heq
      have h1 := count_after_join today s rid q lid s1 heq
      have hq := hd q (List.mem_cons_self q qs)
      rw [hq] at h1
      have h2 := ih s1 s' (fun q' hq' => hd q' (List.mem_cons_of_mem q hq')) h
      rw [h2, h1]
      simp only [List.length_cons]
      omega
    · simp at h

/-- Splitting a filtered length along a second boolean predicate. -/
lemma length_filter_split {α : Type} (p q : α → Bool) (l : List α) :
    (l.filter p).length
      = (l.filter fun a => p a && q a).length
        + (l.filter fun a => p a && !q a).length := by
  induction l with
  | nil => simp
  | cons a l ih =>
    cases hp : p a <;> cases hq : q a <;> simp [hp, hq, ih] <;> omega

/-- Removing a rider that has exactly one association row for `(d, rid)`
lowers the occupancy count of `(d, rid)` by exactly one. -/
lemma count_after_remove (s : DBState) (d : String) (rid : Nat) (lid : Nat)
    (huniq : (s.cal.filter fun c =>
        c.travel_date == d && c.route_id == rid && c.link_id == some lid).length = 1) :
    api_route_count s d rid
      = api_route_count ((api_links_modify s lid LinksModCall.del).2) d rid + 1 := by
  unfold api_route_count api_links_modify
  simp only [List.filter_filter]
  have hsplit := length_filter_split
    (fun c : CalRow => c.travel_date == d && c.route_id == rid && c.link_id.isSome)
    (fun c : CalRow => c.link_id == some lid) s.cal
  have heqL : (s.cal.filter fun c =>
      (c.travel_date == d && c.route_id == rid && c.link_id.isSome) && (c.link_id == some lid))
      = s.cal.filter fun c => c.travel_date == d && c.route_id == rid && c.link_id == some lid := by
    apply List.filter_congr
    intro c _
    by_cases hc : c.link_id = some lid
    · simp [hc]
    · have hcl : (c.link_id == some lid) = false := by simpa using hc
      simp [hcl]
  rw [heqL, huniq] at hsplit
  omega

/-- C7: the `/route_count` occupancy query counts the non-null association
rows of its `(date, route_id)`: after a chain of N successful joins for that
tuple it has grown by exactly N, and removing a rider holding exactly one
association row for the tuple lowers it by exactly one. -/
theorem route_count_tracks_joins_and_removal :
    (∀ (today rid : Nat) (d : String) (qs : List JoinReq) (s s' : DBState),
      (∀ q ∈ qs, q.date.getD "" = d) → joinAll today rid s qs = some s' →
      api_route_count s' d rid = api_route_count s d rid + qs.length)
    ∧ (∀ (s : DBState) (d : String) (rid lid : Nat),
      (s.cal.filter fun c =>
          c.travel_date == d && c.route_id == rid && c.link_id == some lid).length = 1 →
      api_route_count s d rid
        = api_route_count ((api_links_modify s lid LinksModCall.del).2) d rid + 1) :=
  ⟨fun today rid d qs s s' => joinAll_count today rid d qs s s',
   fun s d rid lid => count_after_remove s d rid lid⟩

/-- C7 witness: two distinct-phone joins on the Library route raise the count
from 0 to 2, and removing rider 1 lowers it back by one. -/
theorem route_count_tracks_joins_and_removal_witness :
    ((∀ q ∈ [reqJoinAsha, reqJoinBela], q.date.getD "" = "2025-03-01")
      ∧ joinAll today0 1 st1 [reqJoinAsha, reqJoinBela] = some stJoins2
      ∧ api_route_count stJoins2 "2025-03-01" 1
          = api_route_count st1 "2025-03-01" 1 + [reqJoinAsha, reqJoinBela].length)
    ∧ ((stJoins2.cal.filter fun c =>
          c.travel_date == "2025-03-01" && c.route_id == 1 && c.link_id == some 1).length = 1
       ∧ api_route_count stJoins2 "2025-03-01" 1
          = api_route_count ((api_links_modify stJoins2 1 LinksModCall.del).2) "2025-03-01" 1 + 1) :=
  ⟨⟨by decide, by decide,
    route_count_tracks_joins_and_removal.1 today0 1 "2025-03-01"
      [reqJoinAsha, reqJoinBela] st1 stJoins2 (by decide) (by decide)⟩,
   ⟨by decide,
    route_count_tracks_joins_and_removal.2 stJoins2 "2025-03-01" 1 1 (by decide)⟩⟩

/-- C8 counterexample: the submitted gender `"m"` is not a member of
`{M, F}`, yet the join is NOT rejected: the handler upper-cases the input
before the membership test and the call succeeds with 201 (a write). -/
theorem join_lowercase_gender_not_rejected_cex :
    reqJoinLowerG.gender = some "m"
    ∧ ¬("m" = "M" ∨ "m" = "F")
    ∧ (api_join_route today0 initState 5 reqJoinLowerG).1 = JoinResp.created 1
    ∧ isValidationResp (api_join_route today0 initState 5 reqJoinLowerG).1 = false := by
  refine ⟨by decide, by decide, by decide, by decide⟩

/-- C8 amended: a join request with a missing/empty required field, an
upper-cased gender outside `{M, F}`, a phone that is not all digits or is
shorter than 7, a malformed date, or a date earlier than `today` fails with
one of the validation responses and performs no write.  (The gender test is
case-insensitive: the handler upper-cases the input first, so the lower-case
`"m"`/`"f"` are accepted, as the counterexample shows.) -/
theorem join_validation_rejects_no_write (today : Nat) (s : DBState) (rid : Nat)
    (q : JoinReq) (hbad : joinRejected today q) :
    isValidationResp (api_join_route today s rid q).1 = true
    ∧ (api_join_route today s rid q).2 = s := by
  unfold api_join_route
  split
  · simp [isValidationResp]
  · rename_i hmiss
    split
    · simp [isValidationResp]
    · rename_i hg
      split
      · simp [isValidationResp]
      · rename_i hp
        split
        · simp [isValidationResp]
        · rename_i sel hsel
          split
          · simp [isValidationResp]
          · rename_i hpast
            exfalso
            rcases hbad with h1 | h2 | h3 | h4 | h5
            · exact h1 (not_not.mp hmiss)
            · exact hg h2
            · exact hp h3
            · rw [hsel] at h4
              exact Option.some_ne_none sel h4
            · obtain ⟨-, hlt⟩ := h5
              rw [hsel] at hlt
              exact hpast hlt

/-- C8 witness: a join dated 2025-03-01 submitted when the clock already
reads 2026-01-01 is rejected without a write. -/
theorem join_validation_rejects_no_write_witness :
    joinRejected 20260101 reqJoinAsha
    ∧ (isValidationResp (api_join_route 20260101 initState 1 reqJoinAsha).1 = true
       ∧ (api_join_route 20260101 initState 1 reqJoinAsha).2 = initState) :=
  ⟨by decide,
   join_validation_rejects_no_write 20260101 initState 1 reqJoinAsha (by decide)⟩

/-- C9 counterexample: `create_route` REQUIRES a caller-supplied `slot_no`
and stores it verbatim — here `"ZZZZ"`, not the sequencer value `"SL0001"` —
and a later route update overwrites the stored `slot_no` with `"AAAA"`, so
the label is neither sequencer-allocated nor immutable. -/
theorem slot_no_caller_supplied_cex :
    next_slot initState = "SL0001"
    ∧ (api_create_route today0 initState reqCreateZ).1 = CreateResp.created 1
    ∧ ((api_create_route today0 initState reqCreateZ).2.routes.map fun r => r.slot_no)
        = ["ZZZZ"]
    ∧ (((api_routes_modify (api_create_route today0 initState reqCreateZ).2 1
          (RoutesModCall.upd { slot_no := some "AAAA" })).2).routes.map fun r => r.slot_no)
        = ["AAAA"] := by
  refine ⟨by decide, by decide, by decide, by decide⟩

/-- C9 amended: the stored `slot_no` is exactly the caller-supplied request
field (the handler never calls the sequencer on insert), and the route-update
endpoint rewrites `slot_no` of the addressed route at will — the label is a
mutable client-chosen value with no uniqueness enforcement. -/
theorem slot_no_caller_supplied_and_mutable :
    (∀ (today : Nat) (s : DBState) (q : CreateRouteReq) (rid : Nat) (s' : DBState),
      api_create_route today s q = (CreateResp.created rid, s') →
      ∃ r ∈ s'.routes, r.id = rid ∧ r.slot_no = q.slot_no.getD "")
    ∧ (∀ (s : DBState) (rid : Nat) (v : String),
      (api_routes_modify s rid (RoutesModCall.upd { slot_no := some v })).2.routes
        = s.routes.map fun r => if r.id == rid then { r with slot_no := v } else r) := by
  constructor
  · intro today s q rid s' h
    obtain ⟨-, -, -, -, hrid, hs'⟩ := create_success_inv h
    subst hs'
    subst hrid
    refine ⟨{ id := s.nextRouteId, slot_no := q.slot_no.getD "",
              end_point := q.end_point.getD "", major_stops := q.major_stops,
              time := q.time, transport_type := q.transport_type,
              no_of_people := 0 }, ?_, rfl, rfl⟩
    simp [createInsert]
  · intro s rid v
    rfl

/-- C9 witness: the amended behaviour at the concrete inputs. -/
theorem slot_no_caller_supplied_and_mutable_witness :
    api_create_route today0 initState reqCreateZ
      = (CreateResp.created 1, (api_create_route today0 initState reqCreateZ).2)
    ∧ (∃ r ∈ (api_create_route today0 initState reqCreateZ).2.routes,
        r.id = 1 ∧ r.slot_no = "ZZZZ")
    ∧ ((api_routes_modify st1 3 (RoutesModCall.upd { slot_no := some "QQQQ" })).2.routes
        = st1.routes.map fun r => if r.id == 3 then { r with slot_no := "QQQQ" } else r) :=
  ⟨by decide,
   slot_no_caller_supplied_and_mutable.1 today0 initState reqCreateZ 1 _ (by decide),
   slot_no_caller_supplied_and_mutable.2 st1 3 "QQQQ"⟩

/-- C10: deleting a rider id for which no `links` row exists (in a state with
no dangling association references) answers ok and changes nothing: the
DELETE branch is idempotent and never reports not-found. -/
theorem remove_missing_rider_is_noop (s : DBState) (lid : Nat)
    (hl : ∀ l ∈ s.links, l.id ≠ lid)
    (hc : ∀ c ∈ s.cal, c.link_id = none ∨ ∃ l ∈ s.links, c.link_id = some l.id) :
    api_links_modify s lid LinksModCall.del = (ModResp.ok, s) := by
  unfold api_links_modify
  have h1 : s.cal.filter (fun c => !(c.link_id == some lid)) = s.cal := by
    rw [List.filter_eq_self]
    intro c hcmem
    rcases hc c hcmem with hnone | ⟨l, hlmem, heq⟩
    · simp [hnone]
    · have hne : l.id ≠ lid := hl l hlmem
      simp [heq, hne]
  have h2 : s.links.filter (fun l => !(l.id == lid)) = s.links := by
    rw [List.filter_eq_self]
    intro l hlmem
    simp [hl l hlmem]
  rw [h1, h2]

/-- C10 witness: removing the nonexistent rider 99 from the one-route state
is a no-op with an ok answer. -/
theorem remove_missing_rider_is_noop_witness :
    ((∀ l ∈ st1.links, l.id ≠ 99)
      ∧ (∀ c ∈ st1.cal, c.link_id = none ∨ ∃ l ∈ st1.links, c.link_id = some l.id))
    ∧ api_links_modify st1 99 LinksModCall.del = (ModResp.ok, st1) :=
  ⟨⟨by decide, by decide⟩,
   remove_missing_rider_is_noop st1 99 (by decide) (by decide)⟩
